import Mathlib

/-!
Formal model of the skill-validator measurement-and-verdict engine.

The TypeScript sources are embedded shallowly: JavaScript numbers are
modelled as rationals (every quantity manipulated here stays far from the
magnitudes at which IEEE-754 doubles and exact rationals diverge), token
and event counts as naturals, fallible asynchronous code as `Except`, and
the external regular-expression engine and file system as explicit
parameters.  Each definition mirrors one function of the source
(`comparator.ts`, `metrics.ts`, `statistics.ts`, `pairwise-judge.ts`,
`assertions.ts`, the `averageResults` helper of `cli.ts`, and the data
model of `types.ts`).
-/

namespace SkillValidator

/-- Winner of a pairwise comparison: the string union
`"baseline" | "skill" | "tie"` of `types.ts`. -/
inductive Winner where
  | baseline
  | skill
  | tie
deriving Repr, DecidableEq, Inhabited

/-- Rendering of a `Winner` back to its source-level string, as used when
the winner is interpolated into reasoning messages. -/
def Winner.str : Winner → String
  | .baseline => "baseline"
  | .skill => "skill"
  | .tie => "tie"

/-- The `PairwiseMagnitude` string union of `types.ts`. -/
inductive PairwiseMagnitude where
  | muchBetter
  | slightlyBetter
  | equal
  | slightlyWorse
  | muchWorse
deriving Repr, DecidableEq, Inhabited

/-- The `PAIRWISE_MAGNITUDE_SCORES` lookup table of `types.ts`:
much-better 1.0, slightly-better 0.4, equal 0.0, slightly-worse -0.4,
much-worse -1.0. -/
def PAIRWISE_MAGNITUDE_SCORES : PairwiseMagnitude → ℚ
  | .muchBetter => 1
  | .slightlyBetter => 0.4
  | .equal => 0
  | .slightlyWorse => -0.4
  | .muchWorse => -1

/-- One agent-runtime event (`AgentEvent` of `types.ts`).  The source
carries an untyped `data` record; this model keeps exactly the projections
`collectMetrics` consumes.  `String(data.content || "")`,
`Number(data.inputTokens || 0)` and `Number(data.outputTokens || 0)`
conflate a missing field with the empty string resp. zero, so the fields
are total here; token counts reported by the agent runtime are naturals. -/
structure AgentEvent where
  type : String
  toolName : String := ""
  content : String := ""
  inputTokens : Nat := 0
  outputTokens : Nat := 0
deriving Repr, DecidableEq, Inhabited

/-- The `Assertion` record of `types.ts`: a type tag plus the optional
`path` / `value` / `pattern` payloads, whose absence the evaluator
conflates with `""` via `a.path || ""` etc. -/
structure Assertion where
  type : String
  path : String := ""
  value : String := ""
  pattern : String := ""
deriving Repr, DecidableEq, Inhabited

/-- The `AssertionResult` record of `types.ts`. -/
structure AssertionResult where
  assertion : Assertion
  passed : Bool
  message : String
deriving Repr, DecidableEq, Inhabited

/-- The `RubricScore` record of `types.ts`. -/
structure RubricScore where
  criterion : String
  score : ℚ
  reasoning : String
deriving Repr, DecidableEq, Inhabited

/-- The `JudgeResult` record of `types.ts`. -/
structure JudgeResult where
  rubricScores : List RubricScore
  overallScore : ℚ
  overallReasoning : String
deriving Repr, DecidableEq, Inhabited

/-- The `RunMetrics` record of `types.ts`.  `toolCallBreakdown` is the
insertion-ordered string-keyed record of per-tool counts. -/
structure RunMetrics where
  tokenEstimate : ℚ
  toolCallCount : ℚ
  toolCallBreakdown : List (String × Nat)
  turnCount : ℚ
  wallTimeMs : ℚ
  errorCount : ℚ
  assertionResults : List AssertionResult
  taskCompleted : Bool
  agentOutput : String
  events : List AgentEvent
  workDir : String
deriving Repr, DecidableEq, Inhabited

/-- The `RunResult` record of `types.ts`. -/
structure RunResult where
  metrics : RunMetrics
  judgeResult : JudgeResult
deriving Repr, DecidableEq, Inhabited

/-- The `PairwiseRubricResult` record of `types.ts`. -/
structure PairwiseRubricResult where
  criterion : String
  winner : Winner
  magnitude : PairwiseMagnitude
  reasoning : String
deriving Repr, DecidableEq, Inhabited

/-- The `PairwiseJudgeResult` record of `types.ts`. -/
structure PairwiseJudgeResult where
  rubricResults : List PairwiseRubricResult
  overallWinner : Winner
  overallMagnitude : PairwiseMagnitude
  overallReasoning : String
  positionSwapConsistent : Bool
deriving Repr, DecidableEq, Inhabited

/-- The `MetricBreakdown` record of `types.ts`: seven signed signals. -/
structure MetricBreakdown where
  tokenReduction : ℚ
  toolCallReduction : ℚ
  taskCompletionImprovement : ℚ
  timeReduction : ℚ
  qualityImprovement : ℚ
  overallJudgmentImprovement : ℚ
  errorReduction : ℚ
deriving Repr, DecidableEq, Inhabited

/-- The `ConfidenceInterval` record of `types.ts`. -/
structure ConfidenceInterval where
  low : ℚ
  high : ℚ
  level : ℚ
deriving Repr, DecidableEq, Inhabited

/-- The `ScenarioComparison` record of `types.ts`. -/
structure ScenarioComparison where
  scenarioName : String
  baseline : RunResult
  withSkill : RunResult
  improvementScore : ℚ
  breakdown : MetricBreakdown
  pairwiseResult : Option PairwiseJudgeResult := none
  perRunScores : Option (List ℚ) := none
deriving Repr, DecidableEq, Inhabited

/-- The part of the `SkillInfo` record of `types.ts` that the comparator
consumes (`computeVerdict` reads only `name` and `path`). -/
structure SkillInfo where
  name : String
  path : String
deriving Repr, DecidableEq, Inhabited

/-- The `SkillVerdict` record of `types.ts`. -/
structure SkillVerdict where
  skillName : String
  skillPath : String
  passed : Bool
  scenarios : List ScenarioComparison
  overallImprovementScore : ℚ
  normalizedGain : Option ℚ := none
  confidenceInterval : Option ConfidenceInterval := none
  isSignificant : Option Bool := none
  reason : String
  profileWarnings : Option (List String) := none
deriving Repr, DecidableEq, Inhabited

/-- The `DEFAULT_WEIGHTS` table of `types.ts`, in object-key insertion
order, as iterated by `Object.entries` in `compareScenario`. -/
def DEFAULT_WEIGHTS : List (String × ℚ) :=
  [("tokenReduction", 0.05),
   ("toolCallReduction", 0.025),
   ("taskCompletionImprovement", 0.15),
   ("timeReduction", 0.025),
   ("qualityImprovement", 0.40),
   ("overallJudgmentImprovement", 0.30),
   ("errorReduction", 0.05)]

/-- Dynamic field access `breakdown[key]` used by the weighted-sum loop of
`compareScenario`. -/
def MetricBreakdown.field (b : MetricBreakdown) (key : String) : ℚ :=
  if key = "tokenReduction" then b.tokenReduction
  else if key = "toolCallReduction" then b.toolCallReduction
  else if key = "taskCompletionImprovement" then b.taskCompletionImprovement
  else if key = "timeReduction" then b.timeReduction
  else if key = "qualityImprovement" then b.qualityImprovement
  else if key = "overallJudgmentImprovement" then b.overallJudgmentImprovement
  else if key = "errorReduction" then b.errorReduction
  else 0

/-- Helper `computeReduction` of `comparator.ts`: relative reduction
`(baseline - withSkill) / baseline` clamped to [-1, 1], with a zero
baseline mapped to 0 when the with-skill value is also zero and to -1
otherwise. -/
def computeReduction (baseline withSkill : ℚ) : ℚ :=
  if baseline = 0 then (if withSkill = 0 then 0 else -1)
  else max (-1) (min 1 ((baseline - withSkill) / baseline))

/-- Helper `averageRubricScore` of `comparator.ts`: mean rubric score of a
run, defaulting to the neutral 3 when the rubric list is empty. -/
def averageRubricScore (result : RunResult) : ℚ :=
  let scores := result.judgeResult.rubricScores
  if scores.length = 0 then 3
  else (scores.foldl (fun sum s => sum + s.score) 0) / scores.length

/-- Helper `normalizeScoreImprovement` of `comparator.ts`:
`(withSkill - baseline) / scale` clamped to [-1, 1], default scale 2.5. -/
def normalizeScoreImprovement (baseline withSkill : ℚ) (scale : ℚ := 2.5) : ℚ :=
  max (-1) (min 1 ((withSkill - baseline) / scale))

/-- Sign adjustment applied inside `pairwiseToQualityScore` of
`pairwise-judge.ts`: a baseline winner negates the magnitude score via
`-Math.abs`, a tie zeroes it, and a skill winner takes `Math.abs`. -/
def signedScore (winner : Winner) (score : ℚ) : ℚ :=
  match winner with
  | .baseline => -|score|
  | .tie => 0
  | .skill => |score|

/-- Per-criterion contribution of the rubric loop in
`pairwiseToQualityScore`. -/
def pairwiseCriterionScore (r : PairwiseRubricResult) : ℚ :=
  signedScore r.winner (PAIRWISE_MAGNITUDE_SCORES r.magnitude)

/-- Function `pairwiseToQualityScore` of `pairwise-judge.ts`: converts a
`PairwiseJudgeResult` into the pair (qualityImprovement,
overallImprovement). -/
def pairwiseToQualityScore (result : PairwiseJudgeResult) :
    ℚ × ℚ :=
  let overallScore :=
    signedScore result.overallWinner
      (PAIRWISE_MAGNITUDE_SCORES result.overallMagnitude)
  let rubricSum :=
    result.rubricResults.foldl (fun sum r => sum + pairwiseCriterionScore r) 0
  let qualityScore :=
    if result.rubricResults.length > 0 then
      rubricSum / result.rubricResults.length
    else 0
  (qualityScore, overallScore)

/-- Accessor naming the first component of `pairwiseToQualityScore`. -/
def pairwiseQualityImprovement (result : PairwiseJudgeResult) : ℚ :=
  (pairwiseToQualityScore result).1

/-- Accessor naming the second component of `pairwiseToQualityScore`. -/
def pairwiseOverallImprovement (result : PairwiseJudgeResult) : ℚ :=
  (pairwiseToQualityScore result).2

/-- Function `compareScenario` of `comparator.ts`: builds the
`MetricBreakdown` from the two averaged `RunResult`s, overrides the two
quality fields when a `PairwiseJudgeResult` is supplied, and computes the
weighted improvement score by iterating `DEFAULT_WEIGHTS`. -/
def compareScenario (scenarioName : String) (baseline withSkill : RunResult)
    (pairwiseResult : Option PairwiseJudgeResult := none) :
    ScenarioComparison :=
  let breakdown0 : MetricBreakdown :=
    { tokenReduction :=
        computeReduction baseline.metrics.tokenEstimate
          withSkill.metrics.tokenEstimate,
      toolCallReduction :=
        computeReduction baseline.metrics.toolCallCount
          withSkill.metrics.toolCallCount,
      taskCompletionImprovement :=
        if withSkill.metrics.taskCompleted = baseline.metrics.taskCompleted
        then 0
        else if withSkill.metrics.taskCompleted then 1 else -1,
      timeReduction :=
        computeReduction baseline.metrics.wallTimeMs
          withSkill.metrics.wallTimeMs,
      qualityImprovement :=
        normalizeScoreImprovement (averageRubricScore baseline)
          (averageRubricScore withSkill),
      overallJudgmentImprovement :=
        normalizeScoreImprovement baseline.judgeResult.overallScore
          withSkill.judgeResult.overallScore,
      errorReduction :=
        computeReduction baseline.metrics.errorCount
          withSkill.metrics.errorCount }
  let breakdown :=
    match pairwiseResult with
    | some pw =>
      { breakdown0 with
        qualityImprovement := pairwiseQualityImprovement pw,
        overallJudgmentImprovement := pairwiseOverallImprovement pw }
    | none => breakdown0
  let improvementScore :=
    DEFAULT_WEIGHTS.foldl
      (fun acc kw => acc + breakdown.field kw.1 * kw.2) 0
  { scenarioName := scenarioName,
    baseline := baseline,
    withSkill := withSkill,
    improvementScore := improvementScore,
    breakdown := breakdown,
    pairwiseResult := pairwiseResult }

/-- Function `seededRandom` of `statistics.ts`: a splitmix-style hash of
the seed producing a rational in [0, 1).  JavaScript 32-bit operations
(`| 0`, `Math.imul`, `^`, `>>>`) act on the two's-complement bit pattern;
the pattern is modelled directly as a natural below 2^32, on which those
operations are addition and multiplication modulo 2^32, `Nat.xor`, and
division by a power of two. -/
def seededRandom (seed : Nat) : ℚ :=
  let s0 := seed % 4294967296
  let s1 := (s0 + 0x9e3779b9) % 4294967296
  let s2 := (Nat.xor s1 (s1 / 65536) * 0x85ebca6b) % 4294967296
  let s3 := (Nat.xor s2 (s2 / 8192) * 0xc2b2ae35) % 4294967296
  let s4 := Nat.xor s3 (s3 / 65536)
  (s4 : ℚ) / 4294967296

/-- Inner resampling loop of `bootstrapConfidenceInterval`: the sum over
`j < n` of `data[Math.floor(rng(i * data.length + j) * data.length)]`,
with the resampling draw `rng` taken as a parameter. -/
def resampleSum (rng : Nat → ℚ) (data : List ℚ) (i : Nat) : Nat → ℚ
  | 0 => 0
  | j + 1 =>
    resampleSum rng data i j +
      data.getD (⌊rng (i * data.length + j) * (data.length : ℚ)⌋).toNat 0

/-- Function `bootstrapConfidenceInterval` of `statistics.ts`, generalized
over the resampling draw `rng` (the source fixes `rng := seededRandom`):
resample-with-replacement means, sorted, indexed at the (α/2, 1 - α/2)
percentiles. -/
def bootstrapConfidenceIntervalWith (rng : Nat → ℚ) (data : List ℚ)
    (confidenceLevel : ℚ := 0.95) (iterations : Nat := 10000) :
    ConfidenceInterval :=
  if data.length = 0 then
    { low := 0, high := 0, level := confidenceLevel }
  else if data.length = 1 then
    { low := data.headD 0, high := data.headD 0, level := confidenceLevel }
  else
    let means :=
      ((List.range iterations).map
        (fun i => resampleSum rng data i data.length / data.length)).mergeSort
        (fun a b => a ≤ b)
    let alpha := 1 - confidenceLevel
    let lowIdx : ℤ := ⌊alpha / 2 * means.length⌋
    let highIdx : ℤ := ⌊(1 - alpha / 2) * means.length⌋ - 1
    { low := means.getD (max 0 lowIdx).toNat 0,
      high := means.getD (min ((means.length : ℤ) - 1) highIdx).toNat 0,
      level := confidenceLevel }

/-- Function `bootstrapConfidenceInterval` of `statistics.ts` as shipped:
the resampling draw is the deterministic `seededRandom`. -/
def bootstrapConfidenceInterval (data : List ℚ) (confidenceLevel : ℚ := 0.95)
    (iterations : Nat := 10000) : ConfidenceInterval :=
  bootstrapConfidenceIntervalWith seededRandom data confidenceLevel iterations

/-- Function `isStatisticallySignificant` of `statistics.ts`: the interval
excludes zero. -/
def isStatisticallySignificant (ci : ConfidenceInterval) : Bool :=
  ci.low > 0 || ci.high < 0

/-- JavaScript `Math.round`: round half toward positive infinity. -/
def jsRound (q : ℚ) : ℚ := ((⌊q + 1/2⌋ : ℤ) : ℚ)

/-- Helper `round1` of `cli.ts`: round to one decimal place. -/
def round1 (n : ℚ) : ℚ := jsRound (n * 10) / 10

/-- Helper `avg` of `cli.ts`: arithmetic mean via `reduce`. -/
def avg (nums : List ℚ) : ℚ := nums.foldl (fun a b => a + b) 0 / nums.length

/-- JavaScript `Number.prototype.toFixed(1)` on the magnitudes reached by
the verdict reasons: nearest one-decimal representation, ties toward
positive infinity. -/
def toFixed1 (q : ℚ) : String :=
  let n : ℤ := ⌊q * 10 + 1/2⌋
  let sign := if n < 0 then "-" else ""
  let m := n.natAbs
  sign ++ toString (m / 10) ++ "." ++ toString (m % 10)

/-- Function `computeNormalizedGain` of `comparator.ts` (extended
version): mean over scenarios of the Hake normalized gain
`(post - pre) / (1 - pre)` on judge overall scores rescaled from [1, 5]
to [0, 1], with the at-ceiling case `pre >= 1` contributing 0 when
maintained and the raw drop otherwise. -/
def computeNormalizedGain (comparisons : List ScenarioComparison) : ℚ :=
  if comparisons.length = 0 then 0
  else
    let totalGain :=
      comparisons.foldl
        (fun acc c =>
          let pre := (c.baseline.judgeResult.overallScore - 1) / 4
          let post := (c.withSkill.judgeResult.overallScore - 1) / 4
          if pre ≥ 1 then
            acc + (if post ≥ pre then 0 else post - pre)
          else acc + (post - pre) / (1 - pre))
        0
    if comparisons.length > 0 then totalGain / comparisons.length else 0

/-- Function `computeVerdict` of `comparator.ts` (extended version, whose
simpler sibling omits the confidence-interval and normalized-gain
fields but decides `passed` and `reason` identically): empty comparison
list fails; a completion regression under `requireCompletion` fails
unconditionally; otherwise pass iff the mean improvement score meets the
threshold. -/
def computeVerdict (skill : SkillInfo) (comparisons : List ScenarioComparison)
    (minImprovement : ℚ) (requireCompletion : Bool)
    (confidenceLevel : ℚ := 0.95) : SkillVerdict :=
  if comparisons.length = 0 then
    { skillName := skill.name,
      skillPath := skill.path,
      passed := false,
      scenarios := [],
      overallImprovementScore := 0,
      reason := "No scenarios to evaluate" }
  else
    let allPerRunScores :=
      comparisons.flatMap (fun c => c.perRunScores.getD [c.improvementScore])
    let overallImprovementScore :=
      comparisons.foldl (fun sum c => sum + c.improvementScore) (0 : ℚ) /
        (comparisons.length : ℚ)
    let normalizedGain := computeNormalizedGain comparisons
    let ci := bootstrapConfidenceInterval allPerRunScores confidenceLevel
    let significant := isStatisticallySignificant ci
    let regressed :=
      comparisons.any
        (fun c =>
          c.baseline.metrics.taskCompleted &&
            !c.withSkill.metrics.taskCompleted)
    if requireCompletion && regressed then
      { skillName := skill.name,
        skillPath := skill.path,
        passed := false,
        scenarios := comparisons,
        overallImprovementScore := overallImprovementScore,
        normalizedGain := some normalizedGain,
        confidenceInterval := some ci,
        isSignificant := some significant,
        reason := "Skill regressed on task completion in one or more scenarios" }
    else
      let passed := overallImprovementScore ≥ minImprovement
      let reason0 :=
        if passed then
          "Improvement score " ++ toFixed1 (overallImprovementScore * 100) ++
            "% meets threshold of " ++ toFixed1 (minImprovement * 100) ++ "%"
        else
          "Improvement score " ++ toFixed1 (overallImprovementScore * 100) ++
            "% below threshold of " ++ toFixed1 (minImprovement * 100) ++ "%"
      let reason :=
        if !significant && allPerRunScores.length > 1 then
          reason0 ++ " (not statistically significant)"
        else reason0
      { skillName := skill.name,
        skillPath := skill.path,
        passed := passed,
        scenarios := comparisons,
        overallImprovementScore := overallImprovementScore,
        normalizedGain := some normalizedGain,
        confidenceInterval := some ci,
        isSignificant := some significant,
        reason := reason }

/-- Function `averageResults` of `cli.ts`: a single run is returned
unchanged; otherwise numeric metrics are rounded means, the aggregated
completion flag is `runs.some(taskCompleted)`, breakdown and rubric
shapes come from the first run, and textual fields from the last run.
Rubric scores missing at an index default to the neutral 3. -/
def averageResults (runs : List RunResult) : RunResult :=
  if runs.length = 1 then runs.getD 0 default
  else
    let first := runs.getD 0 default
    let last := runs.getLastD default
    let avgMetrics : RunMetrics :=
      { tokenEstimate := jsRound (avg (runs.map (fun r => r.metrics.tokenEstimate))),
        toolCallCount := jsRound (avg (runs.map (fun r => r.metrics.toolCallCount))),
        toolCallBreakdown := first.metrics.toolCallBreakdown,
        turnCount := jsRound (avg (runs.map (fun r => r.metrics.turnCount))),
        wallTimeMs := jsRound (avg (runs.map (fun r => r.metrics.wallTimeMs))),
        errorCount := jsRound (avg (runs.map (fun r => r.metrics.errorCount))),
        assertionResults := last.metrics.assertionResults,
        taskCompleted := runs.any (fun r => r.metrics.taskCompleted),
        agentOutput := last.metrics.agentOutput,
        events := last.metrics.events,
        workDir := last.metrics.workDir }
    let avgJudge : JudgeResult :=
      { rubricScores :=
          first.judgeResult.rubricScores.enum.map
            (fun is =>
              { criterion := is.2.criterion,
                score :=
                  round1 (avg (runs.map
                    (fun r =>
                      ((r.judgeResult.rubricScores.get? is.1).map
                        (fun s => s.score)).getD 3))),
                reasoning := is.2.reasoning }),
        overallScore :=
          round1 (avg (runs.map (fun r => r.judgeResult.overallScore))),
        overallReasoning := last.judgeResult.overallReasoning }
    { metrics := avgMetrics, judgeResult := avgJudge }

/-- Function `mergeInconsistentResults` of `pairwise-judge.ts`: invoked
when the two orderings disagree on the overall winner.  Per-criterion
results where the reverse entry is missing or names a different winner
collapse to tie/equal with a reasoning naming both; criteria where both
orderings agree keep the forward entry.  The overall outcome collapses
to tie/equal, flagged inconsistent, with a reasoning naming both raw
winners. -/
def mergeInconsistentResults (forward reverse : PairwiseJudgeResult) :
    PairwiseJudgeResult :=
  { rubricResults :=
      forward.rubricResults.enum.map
        (fun ifr =>
          let fr := ifr.2
          match reverse.rubricResults.get? ifr.1 with
          | none =>
            { criterion := fr.criterion,
              winner := .tie,
              magnitude := .equal,
              reasoning :=
                "Position-swap inconsistent: forward=" ++ fr.winner.str ++
                  ", reverse=unknown" }
          | some rr =>
            if fr.winner ≠ rr.winner then
              { criterion := fr.criterion,
                winner := .tie,
                magnitude := .equal,
                reasoning :=
                  "Position-swap inconsistent: forward=" ++ fr.winner.str ++
                    ", reverse=" ++ rr.winner.str }
            else fr),
    overallWinner := .tie,
    overallMagnitude := .equal,
    overallReasoning :=
      "Position-swap inconsistent (forward: " ++ forward.overallWinner.str ++
        ", reverse: " ++ reverse.overallWinner.str ++ "). Defaulting to tie.",
    positionSwapConsistent := false }

/-- Pure reconciliation core of `pairwiseJudge` in `pairwise-judge.ts`
(lines 39-55): once the forward and reverse judge calls have produced
their results, agreement on the overall winner returns the forward result
flagged consistent, and disagreement merges conservatively. -/
def reconcilePairwise (forward reverse : PairwiseJudgeResult) :
    PairwiseJudgeResult :=
  if forward.overallWinner = reverse.overallWinner then
    { forward with positionSwapConsistent := true }
  else mergeInconsistentResults forward reverse

/-- Accumulator of the first event loop of `collectMetrics` in
`metrics.ts`. -/
structure MetricsAcc where
  tokenEstimate : Nat
  hasRealTokenCounts : Bool
  toolCallCount : Nat
  toolCallBreakdown : List (String × Nat)
  turnCount : Nat
  errorCount : Nat
deriving Repr, DecidableEq, Inhabited

/-- Record update `breakdown[name] = (breakdown[name] || 0) + 1`,
preserving key insertion order. -/
def bumpCount : List (String × Nat) → String → List (String × Nat)
  | [], name => [(name, 1)]
  | (k, v) :: rest, name =>
    if k = name then (k, v + 1) :: rest else (k, v) :: bumpCount rest name

/-- One iteration of the first event loop of `collectMetrics`: the
`switch` over the event type. -/
def stepMetricsEvent (acc : MetricsAcc) (e : AgentEvent) : MetricsAcc :=
  if e.type = "tool.execution_start" then
    let toolName := if e.toolName = "" then "unknown" else e.toolName
    { acc with
      toolCallCount := acc.toolCallCount + 1,
      toolCallBreakdown := bumpCount acc.toolCallBreakdown toolName }
  else if e.type = "assistant.message" then
    { acc with turnCount := acc.turnCount + 1 }
  else if e.type = "assistant.usage" then
    if 0 < e.inputTokens ∨ 0 < e.outputTokens then
      { acc with
        hasRealTokenCounts := true,
        tokenEstimate := acc.tokenEstimate + (e.inputTokens + e.outputTokens) }
    else acc
  else if e.type = "session.error" ∨ e.type = "runner.error" then
    { acc with errorCount := acc.errorCount + 1 }
  else acc

/-- Second event loop of `collectMetrics`: the character-count fallback
`Math.ceil(content.length / 4)` over user and assistant messages. -/
def heuristicTokens (events : List AgentEvent) : Nat :=
  events.foldl
    (fun acc e =>
      if e.type = "assistant.message" ∨ e.type = "user.message" then
        acc + (e.content.length + 3) / 4
      else acc)
    0

/-- Function `collectMetrics` of `metrics.ts`: folds the event stream into
a `RunMetrics`, preferring real usage token counts and falling back to the
character heuristic only when no usage event carried nonzero counts. -/
def collectMetrics (events : List AgentEvent) (agentOutput : String)
    (wallTimeMs : ℚ) (workDir : String) : RunMetrics :=
  let acc :=
    events.foldl stepMetricsEvent
      { tokenEstimate := 0, hasRealTokenCounts := false, toolCallCount := 0,
        toolCallBreakdown := [], turnCount := 0, errorCount := 0 }
  let tokenEstimate :=
    if acc.hasRealTokenCounts then acc.tokenEstimate
    else acc.tokenEstimate + heuristicTokens events
  { tokenEstimate := (tokenEstimate : ℚ),
    toolCallCount := (acc.toolCallCount : ℚ),
    toolCallBreakdown := acc.toolCallBreakdown,
    turnCount := (acc.turnCount : ℚ),
    wallTimeMs := wallTimeMs,
    errorCount := (acc.errorCount : ℚ),
    assertionResults := [],
    taskCompleted := false,
    agentOutput := agentOutput,
    events := events,
    workDir := workDir }

/-- Character-list test: the first list occurs at the head of the
second. -/
def startsWithChars : List Char → List Char → Bool
  | [], _ => true
  | _ :: _, [] => false
  | a :: as, b :: bs => a = b && startsWithChars as bs

/-- Character-list substring test: the needle occurs somewhere in the
haystack; an empty needle always occurs. -/
def containsChars : List Char → List Char → Bool
  | _, [] => true
  | [], _ :: _ => false
  | a :: rest, needle =>
    startsWithChars needle (a :: rest) || containsChars rest needle

/-- Substring test modelling JavaScript `String.prototype.includes`: the
empty needle is always contained. -/
def strContains (s needle : String) : Bool :=
  containsChars s.data needle.data

/-- Character-wise lowercasing modelling JavaScript
`String.prototype.toLowerCase` on the ASCII content the evaluator
compares. -/
def strToLower (s : String) : String :=
  ⟨s.data.map Char.toLower⟩

/-- The external regular-expression engine behind
`new RegExp(pattern, "i")` and `regex.test` in `assertions.ts`:
compilation of a syntactically invalid pattern throws in JavaScript,
modelled by `compile` returning `none`; `rtest` is the case-insensitive
match of a compiled pattern against a string. -/
structure RegexEngine (ρ : Type) where
  compile : String → Option ρ
  rtest : ρ → String → Bool

/-- The file-system queries of `assertions.ts`, each of which catches all
of its own errors in the source and therefore appears total here:
`globExists pattern workDir` is `fileExistsGlob` (glob match with a
literal-path `stat` fallback), `globMatches pattern workDir` is
`findMatchingFiles` (empty on glob errors), and `readFile` yields `none`
for unreadable files. -/
structure FileSystem where
  globExists : String → String → Bool
  globMatches : String → String → List String
  readFile : String → Option String

/-- Scan of matched files inside the `file_contains` handler: stable
order, unreadable files skipped, short-circuit on the first file whose
content contains the value. -/
def fileContainsLoop (fs : FileSystem) (a : Assertion) (value workDir : String) :
    List String → AssertionResult
  | [] =>
    { assertion := a,
      passed := false,
      message := "No file matching " ++ a.path ++ " contains " ++ value }
  | file :: rest =>
    match fs.readFile (workDir ++ "/" ++ file) with
    | some content =>
      if strContains content value then
        { assertion := a,
          passed := true,
          message := "File " ++ file ++ " contains " ++ value }
      else fileContainsLoop fs a value workDir rest
    | none => fileContainsLoop fs a value workDir rest

/-- Dispatch of one assertion through the `HANDLERS` registry of
`assertions.ts`, including the unknown-type fallback of
`evaluateAssertions`.  Each handler is an async function whose thrown
exceptions become promise rejections; the only handler that can throw is
the pattern pair, when `new RegExp` rejects the pattern, modelled as
`Except.error`. -/
def evalAssertion {ρ : Type} (eng : RegexEngine ρ) (fs : FileSystem)
    (a : Assertion) (agentOutput workDir : String) :
    Except String AssertionResult :=
  if a.type = "file_exists" then
    let found := fs.globExists a.path workDir
    .ok { assertion := a,
          passed := found,
          message :=
            if found then "File matching " ++ a.path ++ " found"
            else "No file matching " ++ a.path ++ " found in " ++ workDir }
  else if a.type = "file_not_exists" then
    let found := fs.globExists a.path workDir
    .ok { assertion := a,
          passed := !found,
          message :=
            if !found then "No file matching " ++ a.path ++ " found (expected)"
            else "File matching " ++ a.path ++ " found but should not exist" }
  else if a.type = "file_contains" then
    let files := fs.globMatches a.path workDir
    if files.length = 0 then
      .ok { assertion := a,
            passed := false,
            message := "No file matching " ++ a.path ++ " found" }
    else .ok (fileContainsLoop fs a a.value workDir files)
  else if a.type = "output_contains" then
    let contains := strContains (strToLower agentOutput) (strToLower a.value)
    .ok { assertion := a,
          passed := contains,
          message :=
            if contains then "Output contains " ++ a.value
            else "Output does not contain " ++ a.value }
  else if a.type = "output_not_contains" then
    let contains := strContains (strToLower agentOutput) (strToLower a.value)
    .ok { assertion := a,
          passed := !contains,
          message :=
            if !contains then "Output does not contain " ++ a.value ++ " (expected)"
            else "Output contains " ++ a.value ++ " but should not" }
  else if a.type = "output_matches" then
    match eng.compile a.pattern with
    | none => .error ("SyntaxError: invalid regular expression: " ++ a.pattern)
    | some regex =>
      let isMatch := eng.rtest regex agentOutput
      .ok { assertion := a,
            passed := isMatch,
            message :=
              if isMatch then "Output matches pattern " ++ a.pattern
              else "Output does not match pattern " ++ a.pattern }
  else if a.type = "output_not_matches" then
    match eng.compile a.pattern with
    | none => .error ("SyntaxError: invalid regular expression: " ++ a.pattern)
    | some regex =>
      let isMatch := eng.rtest regex agentOutput
      .ok { assertion := a,
            passed := !isMatch,
            message :=
              if !isMatch then
                "Output does not match pattern " ++ a.pattern ++ " (expected)"
              else "Output matches pattern " ++ a.pattern ++ " but should not" }
  else if a.type = "exit_success" then
    let success := agentOutput.length > 0
    .ok { assertion := a,
          passed := success,
          message :=
            if success then "Agent completed successfully"
            else "Agent produced no output" }
  else
    .ok { assertion := a,
          passed := false,
          message := "Unknown assertion type: " ++ a.type }

/-- Function `evaluateAssertions` of `assertions.ts`: one handler call per
assertion over the shared (output, workDir) context, gathered by
`Promise.all`, whose returned promise rejects as soon as any handler
rejects. -/
def evaluateAssertions {ρ : Type} (eng : RegexEngine ρ) (fs : FileSystem)
    (assertions : List Assertion) (agentOutput workDir : String) :
    Except String (List AssertionResult) :=
  assertions.mapM (fun a => evalAssertion eng fs a agentOutput workDir)

lemma computeReduction_self (x : ℚ) : computeReduction x x = 0 := by
  unfold computeReduction
  by_cases hx : x = 0
  · simp [hx]
  · rw [if_neg hx]
    rw [sub_self, zero_div]
    norm_num

lemma normalizeScoreImprovement_self (x s : ℚ) :
    normalizeScoreImprovement x x s = 0 := by
  unfold normalizeScoreImprovement
  rw [sub_self, zero_div]
  norm_num

lemma computeReduction_bounds (b s : ℚ) :
    -1 ≤ computeReduction b s ∧ computeReduction b s ≤ 1 := by
  unfold computeReduction
  split_ifs with h1 h2
  · norm_num
  · norm_num
  · constructor
    · exact le_max_left _ _
    · exact max_le (by norm_num) (min_le_left _ _)

lemma normalizeScoreImprovement_bounds (b s scale : ℚ) :
    -1 ≤ normalizeScoreImprovement b s scale ∧
      normalizeScoreImprovement b s scale ≤ 1 := by
  unfold normalizeScoreImprovement
  constructor
  · exact le_max_left _ _
  · exact max_le (by norm_num) (min_le_left _ _)

lemma magnitude_score_bounds (m : PairwiseMagnitude) :
    -1 ≤ PAIRWISE_MAGNITUDE_SCORES m ∧ PAIRWISE_MAGNITUDE_SCORES m ≤ 1 := by
  cases m <;> simp [PAIRWISE_MAGNITUDE_SCORES] <;> norm_num

lemma signedScore_bounds (w : Winner) (s : ℚ) (hs : -1 ≤ s ∧ s ≤ 1) :
    -1 ≤ signedScore w s ∧ signedScore w s ≤ 1 := by
  have habs : |s| ≤ 1 := abs_le.mpr hs
  have h0 : (0 : ℚ) ≤ |s| := abs_nonneg s
  cases w
  case baseline => refine ⟨?_, ?_⟩ <;> simp only [signedScore] <;> linarith
  case skill => refine ⟨?_, ?_⟩ <;> simp only [signedScore] <;> linarith
  case tie => refine ⟨?_, ?_⟩ <;> simp only [signedScore] <;> norm_num

lemma pairwiseCriterionScore_bounds (r : PairwiseRubricResult) :
    -1 ≤ pairwiseCriterionScore r ∧ pairwiseCriterionScore r ≤ 1 :=
  signedScore_bounds _ _ (magnitude_score_bounds _)

lemma foldl_add_map {α : Type} (f : α → ℚ) :
    ∀ (l : List α) (a : ℚ),
      l.foldl (fun s r => s + f r) a = a + (l.map f).sum
  | [], a => by simp
  | x :: xs, a => by
    rw [List.foldl_cons, foldl_add_map f xs, List.map_cons, List.sum_cons]
    ring

lemma sum_div_length_bounds (l : List ℚ) (hne : l ≠ [])
    (h : ∀ x ∈ l, -1 ≤ x ∧ x ≤ 1) :
    -1 ≤ l.sum / l.length ∧ l.sum / l.length ≤ 1 := by
  have hlen : 0 < (l.length : ℚ) := by
    have := List.length_pos.mpr hne
    exact_mod_cast this
  have hup : l.sum ≤ (l.length : ℚ) := by
    calc l.sum ≤ l.length • (1 : ℚ) :=
          List.sum_le_card_nsmul l 1 (fun x hx => (h x hx).2)
      _ = (l.length : ℚ) := by simp
  have hlo : -(l.length : ℚ) ≤ l.sum := by
    calc -(l.length : ℚ) = l.length • (-1 : ℚ) := by simp
      _ ≤ l.sum := List.card_nsmul_le_sum l (-1) (fun x hx => (h x hx).1)
  constructor
  · rw [le_div_iff hlen]
    linarith
  · rw [div_le_one hlen]
    exact hup

lemma pairwiseOverallImprovement_bounds (r : PairwiseJudgeResult) :
    -1 ≤ pairwiseOverallImprovement r ∧ pairwiseOverallImprovement r ≤ 1 := by
  unfold pairwiseOverallImprovement pairwiseToQualityScore
  exact signedScore_bounds _ _ (magnitude_score_bounds _)

lemma pairwiseQualityImprovement_bounds (r : PairwiseJudgeResult) :
    -1 ≤ pairwiseQualityImprovement r ∧ pairwiseQualityImprovement r ≤ 1 := by
  unfold pairwiseQualityImprovement pairwiseToQualityScore
  simp only [foldl_add_map, zero_add]
  by_cases hlen : r.rubricResults.length > 0
  · rw [if_pos hlen]
    have hne : r.rubricResults.map pairwiseCriterionScore ≠ [] := by
      simp [List.map_eq_nil]
      intro h
      rw [h] at hlen
      simp at hlen
    have := sum_div_length_bounds (r.rubricResults.map pairwiseCriterionScore)
      hne (by
        intro x hx
        obtain ⟨c, _, rfl⟩ := List.mem_map.mp hx
        exact pairwiseCriterionScore_bounds c)
    simpa using this
  · rw [if_neg hlen]
    norm_num

/-- Concrete run metrics used to instantiate proved theorems on explicit
inputs. -/
def sampleMetrics (tokens : ℚ) (tc : Bool) : RunMetrics :=
  { tokenEstimate := tokens,
    toolCallCount := 10,
    toolCallBreakdown := [("bash", 5), ("read", 5)],
    turnCount := 5,
    wallTimeMs := 10000,
    errorCount := 0,
    assertionResults := [],
    taskCompleted := tc,
    agentOutput := "output",
    events := [],
    workDir := "/tmp/work" }

/-- Concrete judge result used together with `sampleMetrics`. -/
def sampleJudge : JudgeResult :=
  { rubricScores := [{ criterion := "Quality", score := 3, reasoning := "OK" }],
    overallScore := 3,
    overallReasoning := "Acceptable" }

/-- Concrete run result used to instantiate proved theorems. -/
def sampleRun (tokens : ℚ) (tc : Bool) : RunResult :=
  { metrics := sampleMetrics tokens tc, judgeResult := sampleJudge }

/-- C1: each efficiency field of the `MetricBreakdown` computed by
`compareScenario` (tokenReduction, toolCallReduction, timeReduction,
errorReduction) equals `(baseline - skill) / baseline` clamped to
[-1, 1], a zero baseline with nonzero with-skill value giving exactly -1;
baseline tokens 1000 against skill tokens 500 gives tokenReduction
exactly 0.5, and identical baseline and with-skill `RunResult`s give
improvementScore 0. -/
theorem compareScenario_efficiency_spec :
    (∀ b s : ℚ, b ≠ 0 →
        computeReduction b s = max (-1) (min 1 ((b - s) / b))) ∧
    (∀ s : ℚ, s ≠ 0 → computeReduction 0 s = -1) ∧
    (∀ (name : String) (b w : RunResult) (pw : Option PairwiseJudgeResult),
        (compareScenario name b w pw).breakdown.tokenReduction =
            computeReduction b.metrics.tokenEstimate
              w.metrics.tokenEstimate ∧
          (compareScenario name b w pw).breakdown.toolCallReduction =
            computeReduction b.metrics.toolCallCount
              w.metrics.toolCallCount ∧
          (compareScenario name b w pw).breakdown.timeReduction =
            computeReduction b.metrics.wallTimeMs w.metrics.wallTimeMs ∧
          (compareScenario name b w pw).breakdown.errorReduction =
            computeReduction b.metrics.errorCount w.metrics.errorCount) ∧
    (∀ (name : String) (b w : RunResult) (pw : Option PairwiseJudgeResult),
        b.metrics.tokenEstimate = 1000 → w.metrics.tokenEstimate = 500 →
        (compareScenario name b w pw).breakdown.tokenReduction = 0.5) ∧
    (∀ (name : String) (r : RunResult),
        (compareScenario name r r none).improvementScore = 0) := by
  refine ⟨?_, ?_, ?_, ?_, ?_⟩
  · intro b s hb
    unfold computeReduction
    rw [if_neg hb]
  · intro s hs
    unfold computeReduction
    rw [if_pos rfl, if_neg hs]
  · intro name b w pw
    cases pw <;> simp [compareScenario]
  · intro name b w pw h1 h2
    have hred : (compareScenario name b w pw).breakdown.tokenReduction =
        computeReduction 1000 500 := by
      cases pw <;> simp [compareScenario, h1, h2]
    rw [hred]
    unfold computeReduction
    rw [if_neg (by norm_num)]
    rw [min_eq_right (by norm_num), max_eq_right (by norm_num)]
    norm_num
  · intro name r
    simp [compareScenario, computeReduction_self, normalizeScoreImprovement_self,
      DEFAULT_WEIGHTS, MetricBreakdown.field]

/-- Witness for `compareScenario_efficiency_spec` at explicit inputs. -/
theorem compareScenario_efficiency_spec_witness :
    (1000 : ℚ) ≠ 0 ∧
    computeReduction 1000 400 = max (-1) (min 1 ((1000 - 400) / 1000)) ∧
    (sampleRun 1000 true).metrics.tokenEstimate = 1000 ∧
    (compareScenario "s" (sampleRun 1000 true) (sampleRun 500 true)
        none).breakdown.tokenReduction = 0.5 ∧
    (compareScenario "s" (sampleRun 1000 true) (sampleRun 1000 true)
        none).improvementScore = 0 :=
  ⟨by norm_num,
    compareScenario_efficiency_spec.1 1000 400 (by norm_num),
    rfl,
    compareScenario_efficiency_spec.2.2.2.1 "s" (sampleRun 1000 true)
      (sampleRun 500 true) none rfl rfl,
    compareScenario_efficiency_spec.2.2.2.2 "s" (sampleRun 1000 true)⟩

/-- C4: every numeric field of every `MetricBreakdown` produced by
`compareScenario` lies in [-1, 1]; the `taskCompletionImprovement` field
is always -1, 0 or 1; this includes the case where a supplied
`PairwiseJudgeResult` overrides the two quality fields via
`pairwiseToQualityScore`. -/
theorem compareScenario_breakdown_bounded :
    ∀ (name : String) (b w : RunResult) (pw : Option PairwiseJudgeResult),
      (-1 ≤ (compareScenario name b w pw).breakdown.tokenReduction ∧
        (compareScenario name b w pw).breakdown.tokenReduction ≤ 1) ∧
      (-1 ≤ (compareScenario name b w pw).breakdown.toolCallReduction ∧
        (compareScenario name b w pw).breakdown.toolCallReduction ≤ 1) ∧
      (-1 ≤ (compareScenario name b w pw).breakdown.taskCompletionImprovement ∧
        (compareScenario name b w pw).breakdown.taskCompletionImprovement ≤ 1) ∧
      (-1 ≤ (compareScenario name b w pw).breakdown.timeReduction ∧
        (compareScenario name b w pw).breakdown.timeReduction ≤ 1) ∧
      (-1 ≤ (compareScenario name b w pw).breakdown.qualityImprovement ∧
        (compareScenario name b w pw).breakdown.qualityImprovement ≤ 1) ∧
      (-1 ≤ (compareScenario name b w pw).breakdown.overallJudgmentImprovement ∧
        (compareScenario name b w pw).breakdown.overallJudgmentImprovement ≤ 1) ∧
      (-1 ≤ (compareScenario name b w pw).breakdown.errorReduction ∧
        (compareScenario name b w pw).breakdown.errorReduction ≤ 1) ∧
      ((compareScenario name b w pw).breakdown.taskCompletionImprovement = -1 ∨
        (compareScenario name b w pw).breakdown.taskCompletionImprovement = 0 ∨
        (compareScenario name b w pw).breakdown.taskCompletionImprovement = 1) := by
  intro name b w pw
  cases pw with
  | none =>
    simp only [compareScenario]
    refine ⟨?_, ?_, ?_, ?_, ?_, ?_, ?_, ?_⟩
    · exact computeReduction_bounds _ _
    · exact computeReduction_bounds _ _
    · split_ifs <;> norm_num
    · exact computeReduction_bounds _ _
    · exact normalizeScoreImprovement_bounds _ _ _
    · exact normalizeScoreImprovement_bounds _ _ _
    · exact computeReduction_bounds _ _
    · split_ifs <;> norm_num
  | some p =>
    simp only [compareScenario]
    refine ⟨?_, ?_, ?_, ?_, ?_, ?_, ?_, ?_⟩
    · exact computeReduction_bounds _ _
    · exact computeReduction_bounds _ _
    · split_ifs <;> norm_num
    · exact computeReduction_bounds _ _
    · exact pairwiseQualityImprovement_bounds _
    · exact pairwiseOverallImprovement_bounds _
    · exact computeReduction_bounds _ _
    · split_ifs <;> norm_num

/-- C8: `pairwiseToQualityScore` maps winner skill with magnitude
much-better to overallImprovement 1.0, winner baseline with magnitude
slightly-better to -0.4, and winner tie to 0 regardless of the magnitude
field; qualityImprovement is the mean of the per-criterion scores under
the same magnitude lookup sign-flipped for a baseline winner, and 0 when
there are no rubric results; both outputs lie in [-1, 1]. -/
theorem pairwiseToQualityScore_spec :
    (∀ r : PairwiseJudgeResult, r.overallWinner = .skill →
        r.overallMagnitude = .muchBetter →
        pairwiseOverallImprovement r = 1) ∧
    (∀ r : PairwiseJudgeResult, r.overallWinner = .baseline →
        r.overallMagnitude = .slightlyBetter →
        pairwiseOverallImprovement r = -0.4) ∧
    (∀ r : PairwiseJudgeResult, r.overallWinner = .tie →
        pairwiseOverallImprovement r = 0) ∧
    (∀ r : PairwiseJudgeResult, r.rubricResults = [] →
        pairwiseQualityImprovement r = 0) ∧
    (∀ r : PairwiseJudgeResult, r.rubricResults ≠ [] →
        pairwiseQualityImprovement r =
          (r.rubricResults.map pairwiseCriterionScore).sum /
            r.rubricResults.length) ∧
    (∀ r : PairwiseJudgeResult,
        (-1 ≤ pairwiseQualityImprovement r ∧
            pairwiseQualityImprovement r ≤ 1) ∧
          (-1 ≤ pairwiseOverallImprovement r ∧
            pairwiseOverallImprovement r ≤ 1)) := by
  refine ⟨?_, ?_, ?_, ?_, ?_, ?_⟩
  · intro r hw hm
    unfold pairwiseOverallImprovement pairwiseToQualityScore
    simp [hw, hm, signedScore, PAIRWISE_MAGNITUDE_SCORES]
  · intro r hw hm
    unfold pairwiseOverallImprovement pairwiseToQualityScore
    simp [hw, hm, signedScore, PAIRWISE_MAGNITUDE_SCORES]
    norm_num
  · intro r hw
    unfold pairwiseOverallImprovement pairwiseToQualityScore
    simp [hw, signedScore]
  · intro r hr
    unfold pairwiseQualityImprovement pairwiseToQualityScore
    simp [hr]
  · intro r hr
    unfold pairwiseQualityImprovement pairwiseToQualityScore
    have hlen : r.rubricResults.length > 0 := List.length_pos.mpr hr
    simp only [foldl_add_map, zero_add, if_pos hlen]
  · intro r
    exact ⟨pairwiseQualityImprovement_bounds r, pairwiseOverallImprovement_bounds r⟩

/-- Concrete pairwise result: skill wins, much-better, no rubric. -/
def pwSkillMuchBetter : PairwiseJudgeResult :=
  { rubricResults := [],
    overallWinner := .skill,
    overallMagnitude := .muchBetter,
    overallReasoning := "skill clearly better",
    positionSwapConsistent := true }

/-- Concrete pairwise result: baseline wins, slightly-better. -/
def pwBaselineSlightlyBetter : PairwiseJudgeResult :=
  { rubricResults :=
      [{ criterion := "Quality", winner := .baseline,
         magnitude := .slightlyBetter, reasoning := "baseline edge" }],
    overallWinner := .baseline,
    overallMagnitude := .slightlyBetter,
    overallReasoning := "baseline slightly better",
    positionSwapConsistent := true }

/-- Concrete pairwise result: tie with a non-equal magnitude field. -/
def pwTieOddMagnitude : PairwiseJudgeResult :=
  { rubricResults := [],
    overallWinner := .tie,
    overallMagnitude := .muchWorse,
    overallReasoning := "tied",
    positionSwapConsistent := true }

/-- Witness for `pairwiseToQualityScore_spec` at explicit inputs. -/
theorem pairwiseToQualityScore_spec_witness :
    pairwiseOverallImprovement pwSkillMuchBetter = 1 ∧
    pairwiseOverallImprovement pwBaselineSlightlyBetter = -0.4 ∧
    pairwiseOverallImprovement pwTieOddMagnitude = 0 ∧
    pairwiseQualityImprovement pwSkillMuchBetter = 0 :=
  ⟨pairwiseToQualityScore_spec.1 pwSkillMuchBetter rfl rfl,
    pairwiseToQualityScore_spec.2.1 pwBaselineSlightlyBetter rfl rfl,
    pairwiseToQualityScore_spec.2.2.1 pwTieOddMagnitude rfl,
    pairwiseToQualityScore_spec.2.2.2.1 pwSkillMuchBetter rfl⟩

/-- Concrete forward judge result: skill wins overall, and its single
criterion also names skill. -/
def fwdInconsistent : PairwiseJudgeResult :=
  { rubricResults :=
      [{ criterion := "correctness", winner := .skill,
         magnitude := .muchBetter, reasoning := "forward view" }],
    overallWinner := .skill,
    overallMagnitude := .slightlyBetter,
    overallReasoning := "forward overall",
    positionSwapConsistent := true }

/-- Concrete reverse judge result: baseline wins overall, yet its single
criterion agrees with the forward call that skill wins it. -/
def revInconsistent : PairwiseJudgeResult :=
  { rubricResults :=
      [{ criterion := "correctness", winner := .skill,
         magnitude := .slightlyBetter, reasoning := "reverse view" }],
    overallWinner := .baseline,
    overallMagnitude := .slightlyBetter,
    overallReasoning := "reverse overall",
    positionSwapConsistent := true }

/-- C2 counterexample: when forward says skill and reverse says baseline
overall, the merged result does collapse the overall outcome to tie, but
a per-criterion outcome on which the two orderings agree keeps the
forward winner (here skill) instead of being forced to tie — refuting the
claim that every per-criterion outcome is forced to tie/equal. -/
theorem reconcilePairwise_agreeing_criterion_counterexample :
    fwdInconsistent.overallWinner ≠ revInconsistent.overallWinner ∧
    (reconcilePairwise fwdInconsistent revInconsistent).overallWinner =
      .tie ∧
    ((reconcilePairwise fwdInconsistent revInconsistent).rubricResults.map
        (fun r => r.winner)) = [Winner.skill] ∧
    ((reconcilePairwise fwdInconsistent revInconsistent).rubricResults.map
        (fun r => r.magnitude)) = [PairwiseMagnitude.muchBetter] := by
  refine ⟨by decide, rfl, rfl, rfl⟩

/-- C2 (amended): whenever the forward and reverse pairwise calls
disagree on the overall winner, the merged result is not numerically
averaged: the overall outcome is forced to tie/equal,
`positionSwapConsistent` is false, and the overall reasoning names both
raw winners; a per-criterion outcome is forced to tie/equal exactly when
the reverse call lacks that criterion or names a different winner, while
a criterion on which both orderings agree keeps the forward entry
unchanged. -/
theorem reconcilePairwise_inconsistent_spec :
    ∀ (fwd rev : PairwiseJudgeResult), fwd.overallWinner ≠ rev.overallWinner →
      (reconcilePairwise fwd rev).overallWinner = .tie ∧
      (reconcilePairwise fwd rev).overallMagnitude = .equal ∧
      (reconcilePairwise fwd rev).positionSwapConsistent = false ∧
      (reconcilePairwise fwd rev).overallReasoning =
        "Position-swap inconsistent (forward: " ++ fwd.overallWinner.str ++
          ", reverse: " ++ rev.overallWinner.str ++ "). Defaulting to tie." ∧
      (reconcilePairwise fwd rev).rubricResults.length =
        fwd.rubricResults.length ∧
      (∀ i : Nat,
        match fwd.rubricResults[i]?, rev.rubricResults[i]? with
        | some fr, some rr =>
          if fr.winner = rr.winner then
            (reconcilePairwise fwd rev).rubricResults[i]? = some fr
          else
            ((reconcilePairwise fwd rev).rubricResults[i]?).map
                (fun r => (r.winner, r.magnitude)) =
              some (Winner.tie, PairwiseMagnitude.equal)
        | some _, none =>
          ((reconcilePairwise fwd rev).rubricResults[i]?).map
              (fun r => (r.winner, r.magnitude)) =
            some (Winner.tie, PairwiseMagnitude.equal)
        | none, _ => True) := by
  intro fwd rev h
  unfold reconcilePairwise
  rw [if_neg h]
  unfold mergeInconsistentResults
  refine ⟨rfl, rfl, rfl, rfl, ?_, ?_⟩
  · simp
  · intro i
    rcases hf : fwd.rubricResults[i]? with _ | fr
    · cases hr : rev.rubricResults[i]? <;> simp
    · rcases hr : rev.rubricResults[i]? with _ | rr
      · simp only [hf, hr]
        simp [List.getElem?_map, List.getElem?_enum, hf,
          List.get?_eq_getElem?, hr]
      · simp only [hf, hr]
        by_cases hw : fr.winner = rr.winner
        · rw [if_pos hw]
          simp [List.getElem?_map, List.getElem?_enum, hf,
            List.get?_eq_getElem?, hr, hw]
        · rw [if_neg hw]
          simp [List.getElem?_map, List.getElem?_enum, hf,
            List.get?_eq_getElem?, hr, hw]

/-- Witness for `reconcilePairwise_inconsistent_spec` at explicit
inputs. -/
theorem reconcilePairwise_inconsistent_spec_witness :
    fwdInconsistent.overallWinner ≠ revInconsistent.overallWinner ∧
    (reconcilePairwise fwdInconsistent revInconsistent).positionSwapConsistent =
      false ∧
    (reconcilePairwise fwdInconsistent revInconsistent).overallReasoning =
      "Position-swap inconsistent (forward: skill, reverse: baseline). Defaulting to tie." :=
  ⟨by decide,
    (reconcilePairwise_inconsistent_spec fwdInconsistent revInconsistent
      (by decide)).2.2.1,
    (reconcilePairwise_inconsistent_spec fwdInconsistent revInconsistent
      (by decide)).2.2.2.1⟩

lemma resampleSum_congr (rng1 rng2 : Nat → ℚ) (h : ∀ n, rng1 n = rng2 n)
    (data : List ℚ) (i : Nat) :
    ∀ j, resampleSum rng1 data i j = resampleSum rng2 data i j := by
  intro j
  induction j with
  | zero => rfl
  | succ j ih => simp [resampleSum, ih, h]

/-- C7: `bootstrapConfidenceInterval` is deterministic: the resampling
draw is the pure function `seededRandom` of the iteration and element
indices rather than true randomness, so the interval is a pure function
of the data list, the confidence level, and the iteration count, and any
two calls on identical inputs return identical (low, high, level)
triples.  Formally: the generalized bootstrap respects any two pointwise
equal draw functions, and the shipped entry point is its instantiation at
`seededRandom`, so call-to-call equality follows with `rng1 = rng2 =
seededRandom`. -/
theorem bootstrapConfidenceInterval_deterministic :
    (∀ (rng1 rng2 : Nat → ℚ) (data : List ℚ) (level : ℚ) (iters : Nat),
        (∀ n, rng1 n = rng2 n) →
        bootstrapConfidenceIntervalWith rng1 data level iters =
          bootstrapConfidenceIntervalWith rng2 data level iters) ∧
    (∀ (data : List ℚ) (level : ℚ) (iters : Nat),
        bootstrapConfidenceInterval data level iters =
          bootstrapConfidenceIntervalWith seededRandom data level iters) := by
  constructor
  · intro rng1 rng2 data level iters h
    unfold bootstrapConfidenceIntervalWith
    have hmap :
        (List.range iters).map
            (fun i => resampleSum rng1 data i data.length /
              (data.length : ℚ)) =
          (List.range iters).map
            (fun i => resampleSum rng2 data i data.length /
              (data.length : ℚ)) := by
      refine List.map_congr_left ?_
      intro i _
      rw [resampleSum_congr rng1 rng2 h]
    rw [hmap]
  · intro data level iters
    rfl

/-- Witness for `bootstrapConfidenceInterval_deterministic` at explicit
inputs: two calls on the data of the spec example with the shipped
seeded draw coincide. -/
theorem bootstrapConfidenceInterval_deterministic_witness :
    bootstrapConfidenceIntervalWith seededRandom
        [0.1, 0.15, 0.2, 0.12, 0.18] 0.95 10000 =
      bootstrapConfidenceIntervalWith seededRandom
        [0.1, 0.15, 0.2, 0.12, 0.18] 0.95 10000 :=
  bootstrapConfidenceInterval_deterministic.1 seededRandom seededRandom
    [0.1, 0.15, 0.2, 0.12, 0.18] 0.95 10000 (fun _ => rfl)

/-- Sum of input+output tokens over all usage events of a stream. -/
def usageTokens : List AgentEvent → Nat
  | [] => 0
  | e :: es =>
    (if e.type = "assistant.usage" then e.inputTokens + e.outputTokens
     else 0) + usageTokens es

/-- Sum of input+output tokens over the usage events that carry a nonzero
count (the ones the first loop of `collectMetrics` accumulates). -/
def realUsageTokens : List AgentEvent → Nat
  | [] => 0
  | e :: es =>
    (if e.type = "assistant.usage" ∧
        (0 < e.inputTokens ∨ 0 < e.outputTokens) then
      e.inputTokens + e.outputTokens
     else 0) + realUsageTokens es

/-- Sum of `ceil(contentLength / 4)` over user and assistant message
events: the character-count fallback of the spec. -/
def charHeuristicTokens : List AgentEvent → Nat
  | [] => 0
  | e :: es =>
    (if e.type = "assistant.message" ∨ e.type = "user.message" then
      (e.content.length + 3) / 4
     else 0) + charHeuristicTokens es

/-- Some usage event of the stream reports a nonzero input or output
token count. -/
def HasRealUsage (events : List AgentEvent) : Prop :=
  ∃ e ∈ events,
    e.type = "assistant.usage" ∧ (0 < e.inputTokens ∨ 0 < e.outputTokens)

instance hasRealUsageDecidable (events : List AgentEvent) :
    Decidable (HasRealUsage events) := by
  unfold HasRealUsage
  infer_instance

lemma realUsageTokens_cons (e : AgentEvent) (es : List AgentEvent) :
    realUsageTokens (e :: es) =
      (if e.type = "assistant.usage" ∧
          (0 < e.inputTokens ∨ 0 < e.outputTokens) then
        e.inputTokens + e.outputTokens
       else 0) + realUsageTokens es := rfl

lemma usageTokens_cons (e : AgentEvent) (es : List AgentEvent) :
    usageTokens (e :: es) =
      (if e.type = "assistant.usage" then e.inputTokens + e.outputTokens
       else 0) + usageTokens es := rfl

lemma charHeuristicTokens_cons (e : AgentEvent) (es : List AgentEvent) :
    charHeuristicTokens (e :: es) =
      (if e.type = "assistant.message" ∨ e.type = "user.message" then
        (e.content.length + 3) / 4
       else 0) + charHeuristicTokens es := rfl

lemma foldl_tokenEstimate :
    ∀ (evs : List AgentEvent) (acc : MetricsAcc),
      (List.foldl stepMetricsEvent acc evs).tokenEstimate =
        acc.tokenEstimate + realUsageTokens evs
  | [], acc => by simp [realUsageTokens]
  | e :: evs, acc => by
    rw [List.foldl_cons, foldl_tokenEstimate evs, realUsageTokens_cons]
    unfold stepMetricsEvent
    split_ifs <;> simp_all <;> omega

lemma foldl_hasRealTokenCounts :
    ∀ (evs : List AgentEvent) (acc : MetricsAcc),
      (List.foldl stepMetricsEvent acc evs).hasRealTokenCounts =
        (acc.hasRealTokenCounts ||
          evs.any (fun e =>
            decide (e.type = "assistant.usage" ∧
              (0 < e.inputTokens ∨ 0 < e.outputTokens))))
  | [], acc => by simp
  | e :: evs, acc => by
    rw [List.foldl_cons, foldl_hasRealTokenCounts evs]
    unfold stepMetricsEvent
    split_ifs <;> simp_all

lemma foldl_heuristic :
    ∀ (evs : List AgentEvent) (a : Nat),
      evs.foldl
          (fun acc e =>
            if e.type = "assistant.message" ∨ e.type = "user.message" then
              acc + (e.content.length + 3) / 4
            else acc) a =
        a + charHeuristicTokens evs
  | [], a => by simp [charHeuristicTokens]
  | e :: evs, a => by
    rw [List.foldl_cons, foldl_heuristic evs, charHeuristicTokens_cons]
    split_ifs <;> omega

lemma realUsageTokens_eq_usageTokens :
    ∀ evs : List AgentEvent, realUsageTokens evs = usageTokens evs
  | [] => rfl
  | e :: evs => by
    rw [realUsageTokens_cons, usageTokens_cons,
      realUsageTokens_eq_usageTokens evs]
    split_ifs <;> simp_all <;> omega

lemma realUsageTokens_eq_zero (evs : List AgentEvent)
    (h : ¬ HasRealUsage evs) : realUsageTokens evs = 0 := by
  induction evs with
  | nil => rfl
  | cons e evs ih =>
    have he : ¬ (e.type = "assistant.usage" ∧
        (0 < e.inputTokens ∨ 0 < e.outputTokens)) :=
      fun hp => h ⟨e, List.mem_cons_self e evs, hp⟩
    have ht : ¬ HasRealUsage evs := by
      rintro ⟨x, hx, hp⟩
      exact h ⟨x, List.mem_cons_of_mem e hx, hp⟩
    rw [realUsageTokens_cons, if_neg he, ih ht]

lemma hasRealUsage_any (evs : List AgentEvent) :
    (evs.any (fun e =>
        decide (e.type = "assistant.usage" ∧
          (0 < e.inputTokens ∨ 0 < e.outputTokens))) = true) ↔
      HasRealUsage evs := by
  rw [List.any_eq_true]
  unfold HasRealUsage
  constructor
  · rintro ⟨e, he, hp⟩
    exact ⟨e, he, of_decide_eq_true hp⟩
  · rintro ⟨e, he, hp⟩
    exact ⟨e, he, decide_eq_true hp⟩

/-- C5: `collectMetrics` uses all-real or all-heuristic token accounting
and never mixes the two: if any usage event reports a nonzero input or
output token count, `tokenEstimate` is exactly the sum of input+output
tokens over the usage events, with no character-heuristic contribution;
only when no usage event carries nonzero counts does `tokenEstimate`
equal the sum of `ceil(contentLength / 4)` over user and assistant
message events. -/
theorem collectMetrics_token_accounting :
    ∀ (events : List AgentEvent) (out : String) (t : ℚ) (dir : String),
      (HasRealUsage events →
        (collectMetrics events out t dir).tokenEstimate =
          (usageTokens events : ℚ)) ∧
      (¬ HasRealUsage events →
        (collectMetrics events out t dir).tokenEstimate =
          (charHeuristicTokens events : ℚ)) := by
  intro events out t dir
  constructor
  · intro h
    have hreal :
        (List.foldl stepMetricsEvent
          { tokenEstimate := 0, hasRealTokenCounts := false,
            toolCallCount := 0, toolCallBreakdown := [], turnCount := 0,
            errorCount := 0 } events).hasRealTokenCounts = true := by
      rw [foldl_hasRealTokenCounts, Bool.false_or]
      exact (hasRealUsage_any events).mpr h
    simp only [collectMetrics, hreal, if_true]
    rw [foldl_tokenEstimate, realUsageTokens_eq_usageTokens]
    simp
  · intro h
    have hreal :
        (List.foldl stepMetricsEvent
          { tokenEstimate := 0, hasRealTokenCounts := false,
            toolCallCount := 0, toolCallBreakdown := [], turnCount := 0,
            errorCount := 0 } events).hasRealTokenCounts = false := by
      rw [foldl_hasRealTokenCounts, Bool.false_or, ← Bool.not_eq_true,
        hasRealUsage_any events]
      exact h
    simp only [collectMetrics, hreal, Bool.false_eq_true, if_false]
    rw [foldl_tokenEstimate, realUsageTokens_eq_zero events h]
    unfold heuristicTokens
    rw [foldl_heuristic]
    simp

/-- Concrete event stream carrying real usage counts. -/
def usageEvents : List AgentEvent :=
  [{ type := "assistant.message", content := "hello there" },
   { type := "assistant.usage", inputTokens := 120, outputTokens := 45 },
   { type := "tool.execution_start", toolName := "bash" }]

/-- Concrete event stream whose only usage event carries zero counts. -/
def heuristicEvents : List AgentEvent :=
  [{ type := "user.message", content := "ninechars" },
   { type := "assistant.usage" },
   { type := "assistant.message", content := "four" }]

/-- Witness for `collectMetrics_token_accounting` at explicit inputs. -/
theorem collectMetrics_token_accounting_witness :
    HasRealUsage usageEvents ∧
    (collectMetrics usageEvents "" 0 "/w").tokenEstimate =
      (usageTokens usageEvents : ℚ) ∧
    usageTokens usageEvents = 165 ∧
    ¬ HasRealUsage heuristicEvents ∧
    (collectMetrics heuristicEvents "" 0 "/w").tokenEstimate =
      (charHeuristicTokens heuristicEvents : ℚ) ∧
    charHeuristicTokens heuristicEvents = 4 :=
  ⟨by decide,
    (collectMetrics_token_accounting usageEvents "" 0 "/w").1 (by decide),
    by decide,
    by decide,
    (collectMetrics_token_accounting heuristicEvents "" 0 "/w").2 (by decide),
    by decide⟩

/-- C6: if `requireCompletion` is enabled and at least one scenario
comparison regressed from baseline-completed to with-skill-not-completed,
`computeVerdict` returns `passed = false` regardless of the mean
improvement score and of the `minImprovement` threshold (including
`minImprovement = 0`), with the completion regression named in the reason
string. -/
theorem computeVerdict_completion_regression :
    ∀ (skill : SkillInfo) (comparisons : List ScenarioComparison)
      (minImprovement confidenceLevel : ℚ) (c : ScenarioComparison),
      c ∈ comparisons →
      c.baseline.metrics.taskCompleted = true →
      c.withSkill.metrics.taskCompleted = false →
      (computeVerdict skill comparisons minImprovement true
          confidenceLevel).passed = false ∧
      (computeVerdict skill comparisons minImprovement true
          confidenceLevel).reason =
        "Skill regressed on task completion in one or more scenarios" := by
  intro skill comparisons minImp conf c hmem hb hw
  have hne : ¬ comparisons.length = 0 := by
    intro h0
    rw [List.length_eq_zero] at h0
    subst h0
    simp at hmem
  have hreg :
      comparisons.any
        (fun c =>
          c.baseline.metrics.taskCompleted &&
            !c.withSkill.metrics.taskCompleted) = true := by
    rw [List.any_eq_true]
    refine ⟨c, hmem, ?_⟩
    rw [hb, hw]
    rfl
  unfold computeVerdict
  rw [if_neg hne]
  simp only [hreg, Bool.and_true, Bool.true_and, if_true]
  exact ⟨trivial, trivial⟩

/-- Concrete scenario comparison regressing from baseline-completed to
with-skill-not-completed, with a positive improvement score. -/
def regressedComparison : ScenarioComparison :=
  { scenarioName := "regressing scenario",
    baseline := sampleRun 1000 true,
    withSkill := sampleRun 500 false,
    improvementScore := 0.5,
    breakdown := default }

/-- Witness for `computeVerdict_completion_regression` at explicit
inputs, with `minImprovement = 0`. -/
theorem computeVerdict_completion_regression_witness :
    regressedComparison ∈ [regressedComparison] ∧
    (computeVerdict { name := "sk", path := "/sk" } [regressedComparison] 0
        true 0.95).passed = false :=
  ⟨List.mem_singleton.mpr rfl,
    (computeVerdict_completion_regression { name := "sk", path := "/sk" }
      [regressedComparison] 0 0.95 regressedComparison
      (List.mem_singleton.mpr rfl) rfl rfl).1⟩

/-- C10: for lists of two or more `RunResult`s, `averageResults` sets the
aggregated `taskCompleted` flag to true iff at least one run completed (a
logical OR across runs, not a majority vote or an average), the numeric
metrics are rounded arithmetic means, and a single-element list is
returned unchanged. -/
theorem averageResults_spec :
    (∀ runs : List RunResult, 2 ≤ runs.length →
        ((averageResults runs).metrics.taskCompleted =
            runs.any (fun r => r.metrics.taskCompleted)) ∧
        ((averageResults runs).metrics.taskCompleted = true ↔
          ∃ r ∈ runs, r.metrics.taskCompleted = true) ∧
        (averageResults runs).metrics.tokenEstimate =
          jsRound (avg (runs.map (fun r => r.metrics.tokenEstimate))) ∧
        (averageResults runs).metrics.toolCallCount =
          jsRound (avg (runs.map (fun r => r.metrics.toolCallCount))) ∧
        (averageResults runs).metrics.turnCount =
          jsRound (avg (runs.map (fun r => r.metrics.turnCount))) ∧
        (averageResults runs).metrics.wallTimeMs =
          jsRound (avg (runs.map (fun r => r.metrics.wallTimeMs))) ∧
        (averageResults runs).metrics.errorCount =
          jsRound (avg (runs.map (fun r => r.metrics.errorCount)))) ∧
    (∀ r : RunResult, averageResults [r] = r) := by
  constructor
  · intro runs h2
    have hne : ¬ runs.length = 1 := by omega
    unfold averageResults
    rw [if_neg hne]
    refine ⟨rfl, ?_, rfl, rfl, rfl, rfl, rfl⟩
    show runs.any (fun r => r.metrics.taskCompleted) = true ↔ _
    rw [List.any_eq_true]
  · intro r
    simp [averageResults]

/-- Witness for `averageResults_spec` at explicit inputs: two runs of
which only the second completed. -/
theorem averageResults_spec_witness :
    2 ≤ ([sampleRun 1000 false, sampleRun 500 true] : List RunResult).length ∧
    (averageResults [sampleRun 1000 false, sampleRun 500 true]).metrics.taskCompleted =
      [sampleRun 1000 false, sampleRun 500 true].any
        (fun r => r.metrics.taskCompleted) ∧
    [sampleRun 1000 false, sampleRun 500 true].any
        (fun r => r.metrics.taskCompleted) = true ∧
    (averageResults [sampleRun 1000 false, sampleRun 500 true]).metrics.tokenEstimate =
      jsRound (avg ([sampleRun 1000 false, sampleRun 500 true].map
        (fun r => r.metrics.tokenEstimate))) ∧
    averageResults [sampleRun 777 true] = sampleRun 777 true :=
  ⟨by simp,
    (averageResults_spec.1 [sampleRun 1000 false, sampleRun 500 true]
      (by simp)).1,
    rfl,
    (averageResults_spec.1 [sampleRun 1000 false, sampleRun 500 true]
      (by simp)).2.2.1,
    averageResults_spec.2 (sampleRun 777 true)⟩

/-- Concrete model regex engine: the pattern "(" fails to compile — as
`new RegExp` rejects an unterminated group in JavaScript — every other
pattern compiles to itself, and a compiled pattern matches the strings
containing it literally. -/
def parenEngine : RegexEngine String :=
  { compile := fun p => if p = "(" then none else some p,
    rtest := fun p s => strContains s p }

/-- Concrete model file system with no files. -/
def emptyFS : FileSystem :=
  { globExists := fun _ _ => false,
    globMatches := fun _ _ => [],
    readFile := fun _ => none }

lemma evaluateAssertions_nil {ρ : Type} (eng : RegexEngine ρ)
    (fs : FileSystem) (out dir : String) :
    evaluateAssertions eng fs [] out dir = .ok [] := rfl

lemma evaluateAssertions_cons {ρ : Type} (eng : RegexEngine ρ)
    (fs : FileSystem) (a : Assertion) (as : List Assertion)
    (out dir : String) :
    evaluateAssertions eng fs (a :: as) out dir =
      (evalAssertion eng fs a out dir).bind
        (fun r => (evaluateAssertions eng fs as out dir).map
          (fun rs => r :: rs)) := by
  unfold evaluateAssertions
  rw [List.mapM_cons]
  rcases evalAssertion eng fs a out dir with e | r
  · rfl
  · rcases as.mapM (fun a => evalAssertion eng fs a out dir) with e | rs
    · rfl
    · rfl

lemma fileContainsLoop_assertion (fs : FileSystem) (a : Assertion)
    (value workDir : String) :
    ∀ files : List String,
      (fileContainsLoop fs a value workDir files).assertion = a
  | [] => rfl
  | f :: rest => by
    unfold fileContainsLoop
    rcases fs.readFile (workDir ++ "/" ++ f) with _ | content
    · exact fileContainsLoop_assertion fs a value workDir rest
    · by_cases hc : strContains content value
      · simp [hc]
      · simp [hc]
        exact fileContainsLoop_assertion fs a value workDir rest

lemma evalAssertion_ok_assertion {ρ : Type} (eng : RegexEngine ρ)
    (fs : FileSystem) (a : Assertion) (out dir : String)
    (r : AssertionResult)
    (h : evalAssertion eng fs a out dir = .ok r) : r.assertion = a := by
  unfold evalAssertion at h
  simp only [] at h
  split_ifs at h <;>
    first
      | (simp only [Except.ok.injEq] at h
         subst h
         rfl)
      | (simp only [Except.ok.injEq] at h
         subst h
         exact fileContainsLoop_assertion fs a a.value dir _)
      | (rcases hre : eng.compile a.pattern with _ | re <;> rw [hre] at h
         · simp at h
         · simp only [Except.ok.injEq] at h
           subst h
           rfl)

lemma evalAssertion_pattern_error {ρ : Type} (eng : RegexEngine ρ)
    (fs : FileSystem) (a : Assertion) (out dir : String)
    (hp : a.type = "output_matches" ∨ a.type = "output_not_matches")
    (hc : eng.compile a.pattern = none) :
    evalAssertion eng fs a out dir =
      .error ("SyntaxError: invalid regular expression: " ++ a.pattern) := by
  unfold evalAssertion
  rcases hp with hp | hp
  · rw [if_neg (by rw [hp]; decide), if_neg (by rw [hp]; decide),
      if_neg (by rw [hp]; decide), if_neg (by rw [hp]; decide),
      if_neg (by rw [hp]; decide), if_pos hp, hc]
  · rw [if_neg (by rw [hp]; decide), if_neg (by rw [hp]; decide),
      if_neg (by rw [hp]; decide), if_neg (by rw [hp]; decide),
      if_neg (by rw [hp]; decide), if_neg (by rw [hp]; decide),
      if_pos hp, hc]

set_option maxHeartbeats 1000000 in
lemma evalAssertion_isOk {ρ : Type} (eng : RegexEngine ρ)
    (fs : FileSystem) (a : Assertion) (out dir : String)
    (h : (a.type = "output_matches" ∨ a.type = "output_not_matches") →
      (eng.compile a.pattern).isSome) :
    ∃ r, evalAssertion eng fs a out dir = .ok r := by
  unfold evalAssertion
  simp only []
  split_ifs <;>
    first
      | exact ⟨_, rfl⟩
      | (rcases hre : eng.compile a.pattern with _ | re
         · exfalso
           have hsome := h (by
             first
               | exact Or.inl (by assumption)
               | exact Or.inr (by assumption))
           rw [hre] at hsome
           simp at hsome
         · exact ⟨_, rfl⟩)

/-- C3 counterexample: a pattern assertion whose pattern is rejected by
the regex engine (here "(", which `new RegExp` rejects) does not produce
a failed `AssertionResult` — the handler throws and the whole batch
promise of `evaluateAssertions` rejects. -/
theorem evaluateAssertions_invalid_pattern_aborts :
    evaluateAssertions parenEngine emptyFS
        [{ type := "output_not_matches", pattern := "(" }] "output" "/w" =
      .error ("SyntaxError: invalid regular expression: (") := by
  rw [evaluateAssertions_cons]
  rw [evalAssertion_pattern_error parenEngine emptyFS
    ({ type := "output_not_matches", pattern := "(" } : Assertion)
    "output" "/w" (Or.inr rfl) rfl]
  rfl

/-- C3 (amended): an `output_matches` or `output_not_matches` assertion
whose pattern fails to compile makes its handler reject, and the whole
`evaluateAssertions` batch rejects with it, rather than producing a
failed `AssertionResult`; an assertion of unknown type, in contrast, is
reported as a failed `AssertionResult` carrying the diagnostic message
`Unknown assertion type: ...` and never aborts the batch; and a batch in
which every pattern assertion compiles always resolves with a result
list. -/
theorem evaluateAssertions_error_policy :
    (∀ (ρ : Type) (eng : RegexEngine ρ) (fs : FileSystem) (a : Assertion)
        (out dir : String),
        (a.type = "output_matches" ∨ a.type = "output_not_matches") →
        eng.compile a.pattern = none →
        evalAssertion eng fs a out dir =
          .error ("SyntaxError: invalid regular expression: " ++
            a.pattern)) ∧
    (∀ (ρ : Type) (eng : RegexEngine ρ) (fs : FileSystem) (a : Assertion)
        (out dir : String),
        a.type ∉ (["file_exists", "file_not_exists", "file_contains",
          "output_contains", "output_not_contains", "output_matches",
          "output_not_matches", "exit_success"] : List String) →
        evalAssertion eng fs a out dir =
          .ok { assertion := a, passed := false,
                message := "Unknown assertion type: " ++ a.type }) ∧
    (∀ (ρ : Type) (eng : RegexEngine ρ) (fs : FileSystem)
        (as : List Assertion) (out dir : String),
        (∀ a ∈ as,
          (a.type = "output_matches" ∨ a.type = "output_not_matches") →
          (eng.compile a.pattern).isSome) →
        ∃ rs, evaluateAssertions eng fs as out dir = .ok rs) ∧
    (∀ (ρ : Type) (eng : RegexEngine ρ) (fs : FileSystem)
        (as : List Assertion) (out dir : String) (a : Assertion),
        a ∈ as →
        (a.type = "output_matches" ∨ a.type = "output_not_matches") →
        eng.compile a.pattern = none →
        ∃ msg, evaluateAssertions eng fs as out dir = .error msg) := by
  refine ⟨?_, ?_, ?_, ?_⟩
  · intro ρ eng fs a out dir hp hc
    exact evalAssertion_pattern_error eng fs a out dir hp hc
  · intro ρ eng fs a out dir h
    simp only [List.mem_cons, List.not_mem_nil, or_false, not_or] at h
    obtain ⟨h1, h2, h3, h4, h5, h6, h7, h8⟩ := h
    unfold evalAssertion
    rw [if_neg h1, if_neg h2, if_neg h3, if_neg h4, if_neg h5, if_neg h6,
      if_neg h7, if_neg h8]
  · intro ρ eng fs as out dir hall
    induction as with
    | nil => exact ⟨[], rfl⟩
    | cons a as ih =>
      obtain ⟨r, hr⟩ :=
        evalAssertion_isOk eng fs a out dir
          (hall a (List.mem_cons_self a as))
      obtain ⟨rs, hrs⟩ :=
        ih (fun x hx => hall x (List.mem_cons_of_mem a hx))
      refine ⟨r :: rs, ?_⟩
      rw [evaluateAssertions_cons, hr, hrs]
      rfl
  · intro ρ eng fs as out dir a hmem hp hc
    induction as with
    | nil => simp at hmem
    | cons x as ih =>
      rw [evaluateAssertions_cons]
      rcases List.mem_cons.mp hmem with hx | hx
      · subst hx
        rw [evalAssertion_pattern_error eng fs a out dir hp hc]
        exact ⟨_, rfl⟩
      · rcases he : evalAssertion eng fs x out dir with e | r
        · exact ⟨e, rfl⟩
        · obtain ⟨msg, hmsg⟩ := ih hx
          rw [hmsg]
          exact ⟨msg, rfl⟩

/-- Witness for `evaluateAssertions_error_policy` at explicit inputs. -/
theorem evaluateAssertions_error_policy_witness :
    (("nonexistent" : String) ∉ (["file_exists", "file_not_exists",
      "file_contains", "output_contains", "output_not_contains",
      "output_matches", "output_not_matches", "exit_success"] :
        List String)) ∧
    evalAssertion parenEngine emptyFS { type := "nonexistent" } "output"
        "/w" =
      .ok { assertion := { type := "nonexistent" }, passed := false,
            message := "Unknown assertion type: nonexistent" } ∧
    (∃ rs, evaluateAssertions parenEngine emptyFS
        [{ type := "output_matches", pattern := "out" },
         { type := "exit_success" }] "output" "/w" = .ok rs) :=
  ⟨by decide,
    evaluateAssertions_error_policy.2.1 String parenEngine emptyFS
      { type := "nonexistent" } "output" "/w" (by decide),
    evaluateAssertions_error_policy.2.2.1 String parenEngine emptyFS
      [{ type := "output_matches", pattern := "out" },
       { type := "exit_success" }] "output" "/w"
      (by
        intro a ha hp
        fin_cases ha <;> simp_all <;> rfl)⟩

/-- C9 counterexample: `evaluateAssertions` does not return one
`AssertionResult` per input assertion for every input list — on a list
containing an `output_matches` assertion whose pattern the engine rejects
(here "("), the batch rejects and no result list is returned at all. -/
theorem evaluateAssertions_shape_counterexample :
    evaluateAssertions parenEngine emptyFS
        [{ type := "output_contains", value := "out" },
         { type := "output_matches", pattern := "(" }] "output" "/w" =
      .error ("SyntaxError: invalid regular expression: (") := by
  rw [evaluateAssertions_cons, evaluateAssertions_cons,
    evalAssertion_pattern_error parenEngine emptyFS
      ({ type := "output_matches", pattern := "(" } : Assertion)
      "output" "/w" (Or.inl rfl) rfl]
  rfl

/-- C9 (amended): whenever `evaluateAssertions` does resolve with a
result list — in particular whenever every pattern assertion compiles —
it returns exactly one `AssertionResult` per input assertion, in the same
order and with the same length as the input list, the i-th result
carrying the i-th input assertion. -/
theorem evaluateAssertions_order_preserving :
    ∀ (ρ : Type) (eng : RegexEngine ρ) (fs : FileSystem)
      (as : List Assertion) (out dir : String)
      (rs : List AssertionResult),
      evaluateAssertions eng fs as out dir = .ok rs →
      rs.length = as.length ∧
      ∀ (i : Nat) (hr : i < rs.length) (ha : i < as.length),
        (rs.get ⟨i, hr⟩).assertion = as.get ⟨i, ha⟩ := by
  intro ρ eng fs as
  induction as with
  | nil =>
    intro out dir rs h
    rw [evaluateAssertions_nil] at h
    simp only [Except.ok.injEq] at h
    subst h
    exact ⟨rfl, fun i hr ha => absurd hr (by simp)⟩
  | cons a as ih =>
    intro out dir rs h
    rw [evaluateAssertions_cons] at h
    rcases he : evalAssertion eng fs a out dir with e | r0 <;> rw [he] at h
    · exact absurd h (by simp [Except.bind])
    · rcases hm : evaluateAssertions eng fs as out dir with e | rs' <;>
        rw [hm] at h
      · exact absurd h (by simp [Except.bind, Except.map])
      · simp only [Except.bind, Except.map, Except.ok.injEq] at h
        subst h
        obtain ⟨hlen, hidx⟩ := ih out dir rs' hm
        refine ⟨by simp [hlen], ?_⟩
        intro i hr ha
        match i with
        | 0 => exact evalAssertion_ok_assertion eng fs a out dir r0 he
        | Nat.succ j =>
          exact hidx j (by simpa using hr) (by simpa using ha)

/-- Witness for `evaluateAssertions_order_preserving` at explicit
inputs: a two-assertion batch that resolves, with the result list
pairing each result with its assertion in order. -/
theorem evaluateAssertions_order_preserving_witness :
    evaluateAssertions parenEngine emptyFS
        [{ type := "output_contains", value := "out" },
         { type := "exit_success" }] "output" "/w" =
      .ok [{ assertion := { type := "output_contains", value := "out" },
             passed := true, message := "Output contains out" },
           { assertion := { type := "exit_success" }, passed := true,
             message := "Agent completed successfully" }] ∧
    ([{ assertion := { type := "output_contains", value := "out" },
        passed := true, message := "Output contains out" },
      { assertion := { type := "exit_success" }, passed := true,
        message := "Agent completed successfully" }] :
          List AssertionResult).length =
      ([{ type := "output_contains", value := "out" },
        { type := "exit_success" }] : List Assertion).length :=
  ⟨rfl,
    (evaluateAssertions_order_preserving String parenEngine emptyFS
      [{ type := "output_contains", value := "out" },
       { type := "exit_success" }] "output" "/w"
      [{ assertion := { type := "output_contains", value := "out" },
         passed := true, message := "Output contains out" },
       { assertion := { type := "exit_success" }, passed := true,
         message := "Agent completed successfully" }] rfl).1⟩
